import Mathlib

/-!
# Page-fault resolution of `userprog/exception.c`

A shallow embedding of `kill`, `load_page_from_file`, `load_page_from_swap`,
`stack_growth` and `page_fault`, followed by theorems about them.

Every function of the C file becomes a Lean function from the machine state to a
`Result`: how the call ended (`Outcome`), the ordered log of the calls it made to
the frame allocator, the swap store, the file reader, `memset`, `install_page`
and the terminating primitives, and the machine state it left behind.
The collaborators that live in other files (allocator, page directory lookup,
supplemental page table lookup, file reader, `install_page`) answer through an
`Env`, so that every theorem quantified over `Env` covers every behaviour of
those collaborators.  Constants declared in headers that are not part of the
sources are the fields of `Params`.
-/

namespace Exception

/-! ## Constants -/

/-- Page size in bytes (`PGSIZE`, threads/vaddr.h). -/
def PGSIZE : Nat := 4096

/-- Width of a machine word: pointers and `size_t` are 32 bit. -/
def WORD : Nat := 2 ^ 32

/-- Constants of headers that are not among the sources (threads/vaddr.h,
threads/pte.h, userprog/exception.h, userprog/gdt.h, threads/palloc.h).
They are parameters of the embedding. -/
structure Params where
  PHYS_BASE : Nat
  PTE_U : Nat
  PTE_M : Nat
  PTE_ADDR : Nat
  PF_P : Nat
  PF_W : Nat
  PF_U : Nat
  SEL_UCSEG : Nat
  SEL_KCSEG : Nat
  PAL_USER : Nat
  PAL_ZERO : Nat

/-- Stock Pintos values of the constants, used where a concrete machine is
needed.  `PTE_M` is an addition of this repository whose value is not in the
sources; it is placed on the first bit that the hardware leaves to the OS. -/
def pintos : Params :=
  { PHYS_BASE := 0xc0000000
    PTE_U := 0x4
    PTE_M := 0x200
    PTE_ADDR := 0xfffff000
    PF_P := 0x1
    PF_W := 0x2
    PF_U := 0x4
    SEL_UCSEG := 0x1b
    SEL_KCSEG := 0x08
    PAL_USER := 0x4
    PAL_ZERO := 0x2 }

/-- Pointer minus a byte count, in 32 bit arithmetic (`p - n` on a `void *`). -/
def ptr_sub (p n : Nat) : Nat := (p % WORD + (WORD - n % WORD)) % WORD

/-- The macro `STACK_BOTTOM`, `(PHYS_BASE - 8*1024*1024)`. -/
def STACK_BOTTOM (P : Params) : Nat := ptr_sub P.PHYS_BASE (8 * 1024 * 1024)

/-- Modelled from the spec: `is_user_vaddr` of threads/vaddr.h (not among the
sources), the address validity check `is_user_address(addr)`: an address is a
user address when it lies below the top of the user address space. -/
def is_user_vaddr (P : Params) (vaddr : Nat) : Bool := decide (vaddr < P.PHYS_BASE)

/-- Modelled from the spec: `pg_round_down` of threads/vaddr.h (not among the
sources), the rounded-down faulting page: the start of the page that holds the
address. -/
def pg_round_down (va : Nat) : Nat := va - va % PGSIZE

/-- The cast `(int) x` of a 32 bit unsigned value. -/
def to_int (x : Nat) : Int :=
  if x % WORD < 2 ^ 31 then ((x % WORD : Nat) : Int) else ((x % WORD : Nat) : Int) - (WORD : Int)

/-! ## Data model -/

/-- The fields of `struct intr_frame` that the handlers read. -/
structure intr_frame where
  error_code : Nat
  esp : Nat
  cs : Nat

/-- The fields of `struct suppl_pte` that the handlers read. -/
structure suppl_pte where
  upage : Nat
  file : Nat
  offset : Nat
  bytes_read : Nat

/-- A mapping put into the page directory by a successful `install_page`.
By the contract of `install_page` the page is then present and user-accessible,
and writable exactly when `writable` is set. -/
structure Mapping where
  upage : Nat
  kpage : Nat
  writable : Bool
deriving DecidableEq

/-- How a call ends.  `_exit`, `thread_exit` and `PANIC` never return to the
caller; a failed `ASSERT` panics the kernel as well. -/
inductive Outcome where
  | returned
  | exited (status : Int)
  | thread_exited
  | panicked
  | assert_failed
deriving DecidableEq

/-- One entry of the call log. -/
inductive Event where
  | stack_growth (fault_page : Nat)
  | load_page_from_swap (pte fault_page : Nat)
  | load_page_from_file (upage : Nat)
  | palloc_get_page (flags upage : Nat) (res : Option Nat)
  | palloc_free_page (kpage : Nat)
  | file_read_at (file buffer size offset : Nat) (res : Int)
  | memset (dst val len : Nat)
  | swap_read (slot kpage : Nat)
  | swap_free (slot : Nat)
  | install_page (upage kpage : Nat) (writable res : Bool)
  | kill
  | thread_exit
  | PANIC
  | _exit (status : Int)
deriving DecidableEq

/-- The mutable machine state the handlers touch. -/
structure State where
  /-- The static counter `page_fault_cnt`. -/
  page_fault_cnt : Nat
  /-- Kernel memory, byte by address; the frames live here. -/
  kmem : Nat → Nat
  /-- The slot map of `swap_table`: is the slot in use? -/
  swap_used : Nat → Bool
  /-- Mappings installed in the page directory of the current thread. -/
  pagedir : List Mapping

/-- Answers of the collaborators and the data they own. -/
structure Env where
  /-- The flag `thread_current ()->in_syscall`. -/
  in_syscall : Bool
  /-- The call `lookup_page (pagedir, page, false)`: `none` is `NULL`, `some v`
  a pointer to an entry whose value is `v`. -/
  lookup_page : Nat → Option Nat
  /-- The call `hash_find` on the supplemental page table with key `upage`. -/
  hash_find : Nat → Option suppl_pte
  /-- The call `palloc_get_page (flags, upage)`: `none` is `NULL`. -/
  palloc_get_page : Nat → Nat → Option Nat
  /-- The result of `install_page (upage, kpage, writable)`. -/
  install_page : Nat → Nat → Bool → Bool
  /-- The byte count returned by `file_read_at (file, buffer, size, offset)`. -/
  file_read_at : Nat → Nat → Nat → Int
  /-- File contents, byte by offset. -/
  file_data : Nat → Nat → Nat
  /-- The result of `file_is_writable (file)`. -/
  file_is_writable : Nat → Bool
  /-- Page images held by the swap slots, byte by offset. -/
  swap_data : Nat → Nat → Nat

/-- What a call did. -/
structure Result where
  outcome : Outcome
  log : List Event
  st : State

/-! ## Memory and collaborator effects -/

/-- The library call `memset (dst, val, len)` on kernel memory. -/
def memset (m : Nat → Nat) (dst val len : Nat) : Nat → Nat :=
  fun a => if dst ≤ a ∧ a < dst + len then val % 256 else m a

/-- Copy `len` bytes of `src` to kernel memory at `dst`. -/
def copy_in (m : Nat → Nat) (dst len : Nat) (src : Nat → Nat) : Nat → Nat :=
  fun a => if dst ≤ a ∧ a < dst + len then src (a - dst) else m a

/-- Modelled from the spec: the effect of `file_read_at` (filesys/file.c is not
among the sources), `read_at(file, dest_frame, byte_count, offset) ->
bytes_actually_read`: the bytes actually read are the file content from the
offset on, stored at the start of the buffer. -/
def do_file_read (env : Env) (file buffer offset : Nat) (res : Int) (st : State) : State :=
  { st with kmem := copy_in st.kmem buffer res.toNat (fun i => env.file_data file (offset + i)) }

/-- Modelled from the spec: the effect of `swap_read` (vm/swap.c is not among the
sources), `read_slot(index, dest_frame)`: the whole page image of the slot is
copied into the frame. -/
def do_swap_read (env : Env) (slot kpage : Nat) (st : State) : State :=
  { st with kmem := copy_in st.kmem kpage PGSIZE (env.swap_data slot) }

/-- Modelled from the spec: the effect of `swap_free` (vm/swap.c is not among the
sources), `free_slot(index)`: the slot goes back to the free pool. -/
def do_swap_free (slot : Nat) (st : State) : State :=
  { st with swap_used := fun s => if s = slot then false else st.swap_used s }

/-- Modelled from the spec: the effect of a successful `install_page`
(userprog/process.c is not among the sources), `install_mapping(page_addr,
frame, writable)`: the mapping is added to the page directory. -/
def do_install (upage kpage : Nat) (writable : Bool) (st : State) : State :=
  { st with pagedir := ⟨upage, kpage, writable⟩ :: st.pagedir }

/-! ## The functions of exception.c -/

/-- The function `kill`: a switch on the code segment of the interrupt frame. -/
def kill (P : Params) (f : intr_frame) (st : State) : Result :=
  if f.cs = P.SEL_UCSEG then
    ⟨.thread_exited, [.kill, .thread_exit], st⟩
  else if f.cs = P.SEL_KCSEG then
    ⟨.panicked, [.kill, .PANIC], st⟩
  else
    ⟨.thread_exited, [.kill, .thread_exit], st⟩

/-- The function `load_page_from_file`. -/
def load_page_from_file (P : Params) (env : Env) (s_pte : suppl_pte) (st : State) : Result :=
  let e0 := Event.load_page_from_file s_pte.upage
  let e1 := Event.palloc_get_page P.PAL_USER s_pte.upage
  match env.palloc_get_page P.PAL_USER s_pte.upage with
  | none => ⟨.exited (-1), [e0, e1 none, ._exit (-1)], st⟩
  | some kpage =>
    let n := env.file_read_at s_pte.file s_pte.bytes_read s_pte.offset
    let e2 := Event.file_read_at s_pte.file kpage s_pte.bytes_read s_pte.offset n
    let st1 := do_file_read env s_pte.file kpage s_pte.offset n st
    if n ≠ to_int s_pte.bytes_read then
      ⟨.exited (-1), [e0, e1 (some kpage), e2, .palloc_free_page kpage, ._exit (-1)], st1⟩
    else
      let dst := kpage + s_pte.bytes_read
      let len := ptr_sub PGSIZE s_pte.bytes_read
      let e3 := Event.memset dst 0 len
      let st2 := { st1 with kmem := memset st1.kmem dst 0 len }
      let w := env.file_is_writable s_pte.file
      if !env.install_page s_pte.upage kpage w then
        ⟨.exited (-1),
          [e0, e1 (some kpage), e2, e3, .install_page s_pte.upage kpage w false,
            .palloc_free_page kpage, ._exit (-1)], st2⟩
      else
        ⟨.returned, [e0, e1 (some kpage), e2, e3, .install_page s_pte.upage kpage w true],
          do_install s_pte.upage kpage w st2⟩

/-- The function `load_page_from_swap`; `pte` is the value `*pte`. -/
def load_page_from_swap (P : Params) (env : Env) (pte fault_page : Nat) (st : State) : Result :=
  let e0 := Event.load_page_from_swap pte fault_page
  if pte &&& P.PTE_U = 0 then
    ⟨.exited (-1), [e0, ._exit (-1)], st⟩
  else
    let e1 := Event.palloc_get_page P.PAL_USER fault_page
    match env.palloc_get_page P.PAL_USER fault_page with
    | none => ⟨.exited (-1), [e0, e1 none, ._exit (-1)], st⟩
    | some kpage =>
      let swap_frame_no := pte &&& P.PTE_ADDR
      if swap_frame_no = 0 then
        ⟨.exited (-1), [e0, e1 (some kpage), ._exit (-1)], st⟩
      else
        let st1 := do_swap_read env swap_frame_no kpage st
        let st2 := do_swap_free swap_frame_no st1
        if !env.install_page fault_page kpage true then
          ⟨.exited (-1),
            [e0, e1 (some kpage), .swap_read swap_frame_no kpage, .swap_free swap_frame_no,
              .install_page fault_page kpage true false, .palloc_free_page kpage, ._exit (-1)],
            st2⟩
        else
          ⟨.returned,
            [e0, e1 (some kpage), .swap_read swap_frame_no kpage, .swap_free swap_frame_no,
              .install_page fault_page kpage true true],
            do_install fault_page kpage true st2⟩

/-- The function `stack_growth`. -/
def stack_growth (P : Params) (env : Env) (fault_page : Nat) (st : State) : Result :=
  let e0 := Event.stack_growth fault_page
  let flags := P.PAL_USER ||| P.PAL_ZERO
  let e1 := Event.palloc_get_page flags fault_page
  match env.palloc_get_page flags fault_page with
  | none => ⟨.exited (-1), [e0, e1 none, ._exit (-1)], st⟩
  | some kpage =>
    let st1 := { st with kmem := memset st.kmem kpage 0 PGSIZE }
    if !env.install_page fault_page kpage true then
      ⟨.exited (-1),
        [e0, e1 (some kpage), .memset kpage 0 PGSIZE, .install_page fault_page kpage true false,
          .palloc_free_page kpage, ._exit (-1)], st1⟩
    else
      ⟨.returned,
        [e0, e1 (some kpage), .memset kpage 0 PGSIZE, .install_page fault_page kpage true true],
        do_install fault_page kpage true st1⟩

/-- The statement `page_fault_cnt++`. -/
def count_fault (st : State) : State :=
  { st with page_fault_cnt := st.page_fault_cnt + 1 }

/-- The function `page_fault`; `cr2` is the fault address read from CR2. -/
def page_fault (P : Params) (env : Env) (cr2 : Nat) (f : intr_frame) (st : State) : Result :=
  let fault_addr := cr2
  let st0 := count_fault st
  let user := (f.error_code &&& P.PF_U) != 0
  if !user && !env.in_syscall then
    kill P f st0
  else if !is_user_vaddr P fault_addr then
    ⟨.exited (-1), [._exit (-1)], st0⟩
  else
    let fault_page := pg_round_down fault_addr
    match env.lookup_page fault_page with
    | none => ⟨.exited (-1), [._exit (-1)], st0⟩
    | some pte =>
      if (fault_addr = ptr_sub f.esp 4 || fault_addr = ptr_sub f.esp 32)
          && decide (fault_addr > STACK_BOTTOM P) then
        stack_growth P env fault_page st0
      else if pte &&& P.PTE_M = 0 then
        load_page_from_swap P env pte fault_page st0
      else
        match env.hash_find fault_page with
        | none => ⟨.exited (-1), [._exit (-1)], st0⟩
        | some s_pte =>
          if s_pte.upage ≠ fault_page then
            ⟨.assert_failed, [.PANIC], st0⟩
          else
            load_page_from_file P env s_pte st0

/-! ## Reading the call log -/

/-- The mappings that `install_page` reported as installed, in call order. -/
def installs_ok : List Event → List Mapping
  | [] => []
  | .install_page upage kpage w true :: es => ⟨upage, kpage, w⟩ :: installs_ok es
  | _ :: es => installs_ok es

/-- One step of the frame ledger: a frame handed out by `palloc_get_page` is
held until `palloc_free_page` releases it or a successful `install_page` hands
it over to the page directory. -/
def held_step (h : List Nat) : Event → List Nat
  | .palloc_get_page _ _ (some kpage) => kpage :: h
  | .palloc_free_page kpage => h.erase kpage
  | .install_page _ kpage _ true => h.erase kpage
  | _ => h

/-- The frames obtained during the logged calls that are, at the end of the
log, neither released nor installed. -/
def held (log : List Event) : List Nat := log.foldl held_step []

/-- Is the event a swap read, a swap free, a file read or an install? -/
def Event.is_backing_or_install : Event → Bool
  | .swap_read _ _ => true
  | .swap_free _ => true
  | .file_read_at _ _ _ _ _ => true
  | .install_page _ _ _ _ => true
  | _ => false

/-- Is the event a call to the allocator, the swap store, the file reader or
`install_page`? -/
def Event.uses_resource : Event → Bool
  | .palloc_get_page _ _ _ => true
  | e => e.is_backing_or_install

/-- Is the event the entry into `stack_growth`? -/
def Event.is_stack_growth : Event → Bool
  | .stack_growth _ => true
  | _ => false

/-- The slots released by `swap_free`, in call order. -/
def swap_frees : List Event → List Nat
  | [] => []
  | .swap_free slot :: es => slot :: swap_frees es
  | _ :: es => swap_frees es

/-- The fault is one the resolver handles: it comes from user mode, or from
kernel mode while the thread executes a system call. -/
def handled (P : Params) (env : Env) (f : intr_frame) : Prop :=
  f.error_code &&& P.PF_U ≠ 0 ∨ env.in_syscall = true

instance (P : Params) (env : Env) (f : intr_frame) : Decidable (handled P env f) := by
  unfold handled; infer_instance

/-- The test of `page_fault` that selects stack growth. -/
def in_stack_window (P : Params) (cr2 : Nat) (f : intr_frame) : Prop :=
  (cr2 = ptr_sub f.esp 4 ∨ cr2 = ptr_sub f.esp 32) ∧ STACK_BOTTOM P < cr2

instance (P : Params) (cr2 : Nat) (f : intr_frame) : Decidable (in_stack_window P cr2 f) := by
  unfold in_stack_window; infer_instance

/-! ## Concrete machines for the closed statements -/

/-- A machine state with stale bytes in every frame, every swap slot in use and
an empty page directory. -/
def st0 : State :=
  { page_fault_cnt := 0
    kmem := fun _ => 0xcc
    swap_used := fun _ => true
    pagedir := [] }

/-- Collaborators that succeed: every lookup finds the entry `pte`, the
allocator hands out the frame at `0xc0271000`, `install_page` succeeds unless
the page is `busy`, the file reader delivers every byte asked for. -/
def env_ok (pte : Option Nat) (busy : Nat) : Env :=
  { in_syscall := false
    lookup_page := fun _ => pte
    hash_find := fun upage => some ⟨upage, 3, 4096, 200⟩
    palloc_get_page := fun _ _ => some 0xc0271000
    install_page := fun upage _ _ => decide (upage ≠ busy)
    file_read_at := fun _ size _ => size
    file_data := fun file ofs => (file + ofs) % 256
    file_is_writable := fun _ => true
    swap_data := fun slot i => (slot + i) % 256 }

/-- The collaborators of `env_ok` with an exhausted frame allocator. -/
def env_exhausted (pte : Option Nat) : Env :=
  { env_ok pte 0 with palloc_get_page := fun _ _ => none }

/-! ## How each path ends -/

/-- The function `stack_growth` returns after one successful install at the page,
or exits with status -1 without a successful install. -/
theorem stack_growth_ends (P : Params) (env : Env) (page : Nat) (st : State) :
    ((stack_growth P env page st).outcome = .returned ∧
        ∃ kpage, installs_ok (stack_growth P env page st).log = [⟨page, kpage, true⟩]) ∨
    ((stack_growth P env page st).outcome = .exited (-1) ∧
        installs_ok (stack_growth P env page st).log = []) := by
  cases hp : env.palloc_get_page (P.PAL_USER ||| P.PAL_ZERO) page with
  | none => simp [stack_growth, hp, installs_ok]
  | some kpage =>
    cases h : env.install_page page kpage true <;> simp [stack_growth, hp, h, installs_ok]

/-- The function `load_page_from_swap` returns after one successful install at
the page, or exits with status -1 without a successful install. -/
theorem load_page_from_swap_ends (P : Params) (env : Env) (pte page : Nat) (st : State) :
    ((load_page_from_swap P env pte page st).outcome = .returned ∧
        ∃ kpage, installs_ok (load_page_from_swap P env pte page st).log = [⟨page, kpage, true⟩]) ∨
    ((load_page_from_swap P env pte page st).outcome = .exited (-1) ∧
        installs_ok (load_page_from_swap P env pte page st).log = []) := by
  by_cases hu : pte &&& P.PTE_U = 0
  · simp [load_page_from_swap, hu, installs_ok]
  · cases hp : env.palloc_get_page P.PAL_USER page with
    | none => simp [load_page_from_swap, hp, hu, installs_ok]
    | some kpage =>
      by_cases hs : pte &&& P.PTE_ADDR = 0
      · simp [load_page_from_swap, hp, hu, hs, installs_ok]
      · cases h : env.install_page page kpage true <;>
          simp [load_page_from_swap, hp, hu, hs, h, installs_ok]

/-- The function `load_page_from_file` returns after one successful install at
the page of the entry, or exits with status -1 without a successful install. -/
theorem load_page_from_file_ends (P : Params) (env : Env) (s : suppl_pte) (st : State) :
    ((load_page_from_file P env s st).outcome = .returned ∧
        ∃ kpage w, installs_ok (load_page_from_file P env s st).log = [⟨s.upage, kpage, w⟩]) ∨
    ((load_page_from_file P env s st).outcome = .exited (-1) ∧
        installs_ok (load_page_from_file P env s st).log = []) := by
  cases hp : env.palloc_get_page P.PAL_USER s.upage with
  | none => simp [load_page_from_file, hp, installs_ok]
  | some kpage =>
    by_cases hn : env.file_read_at s.file s.bytes_read s.offset = to_int s.bytes_read
    · cases h : env.install_page s.upage kpage (env.file_is_writable s.file) <;>
        simp [load_page_from_file, hp, hn, h, installs_ok]
    · simp [load_page_from_file, hp, hn, installs_ok]

/-- The function `kill` never returns and installs nothing. -/
theorem kill_ends (P : Params) (f : intr_frame) (st : State) :
    ((kill P f st).outcome = .thread_exited ∨ (kill P f st).outcome = .panicked) ∧
    Event.kill ∈ (kill P f st).log ∧ installs_ok (kill P f st).log = [] := by
  unfold kill
  split_ifs <;> simp [installs_ok]

/-! ## How `page_fault` dispatches -/

/-- A kernel-mode fault outside a system call goes to `kill`. -/
theorem page_fault_unhandled (P : Params) (env : Env) (cr2 : Nat) (f : intr_frame) (st : State)
    (hk : ¬ handled P env f) :
    page_fault P env cr2 f st = kill P f (count_fault st) := by
  have hk2 : (!(f.error_code &&& P.PF_U != 0) && !env.in_syscall) = true := by
    unfold handled at hk
    push_neg at hk
    simp [hk.1, hk.2]
  simp only [page_fault]
  rw [if_pos hk2]

/-- For a handled fault the first test of `page_fault` fails. -/
theorem handled_test (P : Params) (env : Env) (f : intr_frame) (hk : handled P env f) :
    (!(f.error_code &&& P.PF_U != 0) && !env.in_syscall) = false := by
  unfold handled at hk
  rcases hk with h | h
  · simp [h]
  · simp [h]

/-- A handled fault at an address that is not a user address exits at once. -/
theorem page_fault_bad_address (P : Params) (env : Env) (cr2 : Nat) (f : intr_frame)
    (st : State) (hk : handled P env f) (ha : ¬ cr2 < P.PHYS_BASE) :
    page_fault P env cr2 f st = ⟨.exited (-1), [._exit (-1)], count_fault st⟩ := by
  simp [page_fault, handled_test P env f hk, is_user_vaddr, ha]

/-- A handled fault on a page for which `lookup_page` returns `NULL` exits at once. -/
theorem page_fault_no_entry (P : Params) (env : Env) (cr2 : Nat) (f : intr_frame)
    (st : State) (hk : handled P env f) (ha : cr2 < P.PHYS_BASE)
    (hl : env.lookup_page (pg_round_down cr2) = none) :
    page_fault P env cr2 f st = ⟨.exited (-1), [._exit (-1)], count_fault st⟩ := by
  simp [page_fault, handled_test P env f hk, is_user_vaddr, ha, hl]

/-- A handled fault with an entry and an address in the stack window goes to
`stack_growth`. -/
theorem page_fault_stack (P : Params) (env : Env) (cr2 : Nat) (f : intr_frame)
    (st : State) (pte : Nat) (hk : handled P env f) (ha : cr2 < P.PHYS_BASE)
    (hl : env.lookup_page (pg_round_down cr2) = some pte) (hw : in_stack_window P cr2 f) :
    page_fault P env cr2 f st = stack_growth P env (pg_round_down cr2) (count_fault st) := by
  unfold in_stack_window at hw
  have hw2 : ((decide (cr2 = ptr_sub f.esp 4) || decide (cr2 = ptr_sub f.esp 32))
      && decide (cr2 > STACK_BOTTOM P)) = true := by
    simpa using hw
  simp only [page_fault, handled_test P env f hk, is_user_vaddr, ha, hl]
  simp [hw2]

/-- Outside the stack window the stack test of `page_fault` fails. -/
theorem stack_test (P : Params) (cr2 : Nat) (f : intr_frame) (hw : ¬ in_stack_window P cr2 f) :
    ((decide (cr2 = ptr_sub f.esp 4) || decide (cr2 = ptr_sub f.esp 32))
      && decide (cr2 > STACK_BOTTOM P)) = false := by
  unfold in_stack_window at hw
  simpa using hw

/-- A handled fault outside the stack window whose entry has `PTE_M` clear goes
to `load_page_from_swap`. -/
theorem page_fault_swap (P : Params) (env : Env) (cr2 : Nat) (f : intr_frame)
    (st : State) (pte : Nat) (hk : handled P env f) (ha : cr2 < P.PHYS_BASE)
    (hl : env.lookup_page (pg_round_down cr2) = some pte) (hw : ¬ in_stack_window P cr2 f)
    (hm : pte &&& P.PTE_M = 0) :
    page_fault P env cr2 f st
      = load_page_from_swap P env pte (pg_round_down cr2) (count_fault st) := by
  simp only [page_fault, handled_test P env f hk, is_user_vaddr, ha, hl]
  simp [stack_test P cr2 f hw, hm]

/-- A handled fault outside the stack window whose entry has `PTE_M` set goes to
the supplemental page table and from there to `load_page_from_file`. -/
theorem page_fault_file (P : Params) (env : Env) (cr2 : Nat) (f : intr_frame)
    (st : State) (pte : Nat) (hk : handled P env f) (ha : cr2 < P.PHYS_BASE)
    (hl : env.lookup_page (pg_round_down cr2) = some pte) (hw : ¬ in_stack_window P cr2 f)
    (hm : pte &&& P.PTE_M ≠ 0) :
    page_fault P env cr2 f st =
      match env.hash_find (pg_round_down cr2) with
      | none => ⟨.exited (-1), [._exit (-1)], count_fault st⟩
      | some s =>
        if s.upage ≠ pg_round_down cr2 then ⟨.assert_failed, [.PANIC], count_fault st⟩
        else load_page_from_file P env s (count_fault st) := by
  simp only [page_fault, handled_test P env f hk, is_user_vaddr, ha, hl]
  simp [stack_test P cr2 f hw, hm]

/-! ## Which faults grow the stack -/

/-- The log of `load_page_from_swap` has no entry into `stack_growth`. -/
theorem load_page_from_swap_no_growth (P : Params) (env : Env) (pte page : Nat) (st : State) :
    ∀ e ∈ (load_page_from_swap P env pte page st).log, e.is_stack_growth = false := by
  by_cases hu : pte &&& P.PTE_U = 0
  · simp [load_page_from_swap, hu, Event.is_stack_growth]
  · cases hp : env.palloc_get_page P.PAL_USER page with
    | none => simp [load_page_from_swap, hp, hu, Event.is_stack_growth]
    | some kpage =>
      by_cases hs : pte &&& P.PTE_ADDR = 0
      · simp [load_page_from_swap, hp, hu, hs, Event.is_stack_growth]
      · cases h : env.install_page page kpage true <;>
          simp [load_page_from_swap, hp, hu, hs, h, Event.is_stack_growth]

/-- The log of `load_page_from_file` has no entry into `stack_growth`. -/
theorem load_page_from_file_no_growth (P : Params) (env : Env) (s : suppl_pte) (st : State) :
    ∀ e ∈ (load_page_from_file P env s st).log, e.is_stack_growth = false := by
  cases hp : env.palloc_get_page P.PAL_USER s.upage with
  | none => simp [load_page_from_file, hp, Event.is_stack_growth]
  | some kpage =>
    by_cases hn : env.file_read_at s.file s.bytes_read s.offset = to_int s.bytes_read
    · cases h : env.install_page s.upage kpage (env.file_is_writable s.file) <;>
        simp [load_page_from_file, hp, hn, h, Event.is_stack_growth]
    · simp [load_page_from_file, hp, hn, Event.is_stack_growth]

/-- The log of `stack_growth` starts with its entry. -/
theorem stack_growth_logged (P : Params) (env : Env) (page : Nat) (st : State) :
    Event.stack_growth page ∈ (stack_growth P env page st).log := by
  cases hp : env.palloc_get_page (P.PAL_USER ||| P.PAL_ZERO) page with
  | none => simp [stack_growth, hp]
  | some kpage =>
    cases h : env.install_page page kpage true <;> simp [stack_growth, hp, h]

/-- The stack test of the code in plain arithmetic: on a machine whose
`PHYS_BASE` is page-aligned, at least 8 MiB and at least 32 bytes below the end
of the address space, a legal fault address other than `STACK_BOTTOM` itself
passes the test exactly when it is 4 or 32 bytes below the stack pointer and its
page is at most 8 MiB below `PHYS_BASE`. -/
theorem in_stack_window_iff (P : Params) (cr2 : Nat) (f : intr_frame)
    (h1 : P.PHYS_BASE % PGSIZE = 0) (h2 : 8 * 1024 * 1024 ≤ P.PHYS_BASE)
    (h3 : P.PHYS_BASE + 32 ≤ WORD) (he : f.esp < WORD) (ha : cr2 < P.PHYS_BASE)
    (hb : cr2 ≠ STACK_BOTTOM P) :
    in_stack_window P cr2 f ↔
      (cr2 + 4 = f.esp ∨ cr2 + 32 = f.esp) ∧
        P.PHYS_BASE - 8 * 1024 * 1024 ≤ pg_round_down cr2 := by
  unfold in_stack_window STACK_BOTTOM ptr_sub pg_round_down
  unfold STACK_BOTTOM ptr_sub at hb
  unfold PGSIZE at *
  unfold WORD at *
  omega

/-- Which handled faults grow the stack: given a legal address and an entry from
`lookup_page`, `page_fault` enters `stack_growth` exactly when the address
passes the stack test of the code. -/
theorem page_fault_grows_iff (P : Params) (env : Env) (cr2 : Nat) (f : intr_frame) (st : State)
    (pte : Nat) (hk : handled P env f) (ha : cr2 < P.PHYS_BASE)
    (hl : env.lookup_page (pg_round_down cr2) = some pte) :
    (∃ e ∈ (page_fault P env cr2 f st).log, e.is_stack_growth = true) ↔
      in_stack_window P cr2 f := by
  constructor
  · rintro ⟨e, he, hs⟩
    by_contra hw
    by_cases hm : pte &&& P.PTE_M = 0
    · rw [page_fault_swap P env cr2 f st pte hk ha hl hw hm] at he
      rw [load_page_from_swap_no_growth P env _ _ _ e he] at hs
      cases hs
    · rw [page_fault_file P env cr2 f st pte hk ha hl hw hm] at he
      cases hh : env.hash_find (pg_round_down cr2) with
      | none =>
        rw [hh] at he
        simp at he
        rw [he] at hs
        cases hs
      | some s =>
        rw [hh] at he
        by_cases hu : s.upage = pg_round_down cr2
        · simp only [hu, ne_eq, not_true_eq_false, if_false] at he
          rw [load_page_from_file_no_growth P env _ _ e he] at hs
          cases hs
        · simp [hu] at he
          rw [he] at hs
          cases hs
  · intro hw
    rw [page_fault_stack P env cr2 f st pte hk ha hl hw]
    exact ⟨_, stack_growth_logged P env _ _, rfl⟩

/-! ## C1: a return means one successful install, at the faulting page -/

/-- What `page_fault` does, path by path: it returns after exactly one
successful install, which is at the rounded-down fault address, or it does not
return and has installed nothing. -/
theorem page_fault_ends (P : Params) (env : Env) (cr2 : Nat) (f : intr_frame) (st : State) :
    ((page_fault P env cr2 f st).outcome = .returned ∧
      ∃ kpage w,
        installs_ok (page_fault P env cr2 f st).log = [⟨pg_round_down cr2, kpage, w⟩]) ∨
    (installs_ok (page_fault P env cr2 f st).log = [] ∧
      ((page_fault P env cr2 f st).outcome = .exited (-1) ∨
      (¬ handled P env f ∧ Event.kill ∈ (page_fault P env cr2 f st).log ∧
        ((page_fault P env cr2 f st).outcome = .thread_exited ∨
          (page_fault P env cr2 f st).outcome = .panicked)) ∨
      ((page_fault P env cr2 f st).outcome = .assert_failed ∧
        ∃ s, env.hash_find (pg_round_down cr2) = some s ∧ s.upage ≠ pg_round_down cr2))) := by
  by_cases hk : handled P env f
  · by_cases ha : cr2 < P.PHYS_BASE
    · cases hl : env.lookup_page (pg_round_down cr2) with
      | none =>
        rw [page_fault_no_entry P env cr2 f st hk ha hl]
        simp [installs_ok]
      | some pte =>
        by_cases hw : in_stack_window P cr2 f
        · rw [page_fault_stack P env cr2 f st pte hk ha hl hw]
          rcases stack_growth_ends P env (pg_round_down cr2) (count_fault st) with h | h
          · exact Or.inl ⟨h.1, h.2.imp fun k hk => ⟨true, hk⟩⟩
          · exact Or.inr ⟨h.2, Or.inl h.1⟩
        · by_cases hm : pte &&& P.PTE_M = 0
          · rw [page_fault_swap P env cr2 f st pte hk ha hl hw hm]
            rcases load_page_from_swap_ends P env pte (pg_round_down cr2) (count_fault st)
              with h | h
            · exact Or.inl ⟨h.1, h.2.imp fun k hk => ⟨true, hk⟩⟩
            · exact Or.inr ⟨h.2, Or.inl h.1⟩
          · rw [page_fault_file P env cr2 f st pte hk ha hl hw hm]
            cases hh : env.hash_find (pg_round_down cr2) with
            | none => simp [installs_ok]
            | some s =>
              by_cases hs : s.upage = pg_round_down cr2
              · simp only [hs, ne_eq, not_true_eq_false, if_false]
                rcases load_page_from_file_ends P env s (count_fault st) with h | h
                · rw [hs] at h
                  exact Or.inl h
                · exact Or.inr ⟨h.2, Or.inl h.1⟩
              · simp [hs, installs_ok]
    · rw [page_fault_bad_address P env cr2 f st hk ha]
      simp [installs_ok]
  · rw [page_fault_unhandled P env cr2 f st hk]
    obtain ⟨h1, h2, h3⟩ := kill_ends P f (count_fault st)
    exact Or.inr ⟨h3, Or.inr (Or.inl ⟨hk, h2, h1⟩)⟩

/-- C1: for every fault context and every behaviour of the collaborators, if
`page_fault` returns then `install_page` succeeded exactly once during the call,
and that was for the rounded-down faulting page; and a call in which no mapping
was installed for the faulting page does not return: it ends in `_exit (-1)`,
in `kill` (only for a kernel-mode fault outside a system call), or, when the
supplemental page table hands back an entry for another page, in the failed
`ASSERT`. -/
theorem page_fault_returns_only_after_install (P : Params) (env : Env) (cr2 : Nat)
    (f : intr_frame) (st : State) :
    ((page_fault P env cr2 f st).outcome = .returned →
      ∃ kpage w,
        installs_ok (page_fault P env cr2 f st).log = [⟨pg_round_down cr2, kpage, w⟩]) ∧
    ((∀ m ∈ installs_ok (page_fault P env cr2 f st).log, m.upage ≠ pg_round_down cr2) →
      (page_fault P env cr2 f st).outcome ≠ .returned ∧
      ((page_fault P env cr2 f st).outcome = .exited (-1) ∨
      (¬ handled P env f ∧ Event.kill ∈ (page_fault P env cr2 f st).log ∧
        ((page_fault P env cr2 f st).outcome = .thread_exited ∨
          (page_fault P env cr2 f st).outcome = .panicked)) ∨
      ((page_fault P env cr2 f st).outcome = .assert_failed ∧
        ∃ s, env.hash_find (pg_round_down cr2) = some s ∧ s.upage ≠ pg_round_down cr2))) := by
  rcases page_fault_ends P env cr2 f st with h | h
  · refine ⟨fun _ => h.2, fun hn => ?_⟩
    obtain ⟨k, w, hkw⟩ := h.2
    exact absurd rfl (hn ⟨pg_round_down cr2, k, w⟩ (by rw [hkw]; simp))
  · refine ⟨fun hr => ?_, fun _ => ⟨?_, h.2⟩⟩
    · rcases h.2 with h2 | h2 | h2
      · rw [h2] at hr; cases hr
      · rcases h2.2.2 with h3 | h3 <;> rw [h3] at hr <;> cases hr
      · rw [h2.1] at hr; cases hr
    · rcases h.2 with h2 | h2 | h2
      · rw [h2]; simp
      · rcases h2.2.2 with h3 | h3 <;> rw [h3] <;> simp
      · rw [h2.1]; simp

/-- C1 at a concrete fault: a user-mode fault on a swap-backed page returns, and
the one successful install is at the faulting page `0x08048000`. -/
theorem page_fault_returns_only_after_install_witness :
    ∃ kpage w,
      installs_ok (page_fault pintos (env_ok (some 0x7004) 0) 0x08048123
        ⟨4, 0xbf800008, 0x1b⟩ st0).log = [⟨pg_round_down 0x08048123, kpage, w⟩] :=
  (page_fault_returns_only_after_install pintos (env_ok (some 0x7004) 0) 0x08048123
    ⟨4, 0xbf800008, 0x1b⟩ st0).1 (by decide)

/-! ## C2: the frame of a swap-in with slot index 0 is not released -/

/-- C2 at its failing input: a user-mode fault on page `0x08048000` whose entry
is user-accessible with `PTE_M` clear and slot index 0.  `load_page_from_swap`
obtains the frame `0xc0271000` and then exits with status -1 without calling
`palloc_free_page`: the frame is still held when the process terminates, while
the install-failure exit of the same function does release it. -/
theorem swap_in_slot_zero_leaks_frame :
    (page_fault pintos (env_ok (some 0x4) 0) 0x08048000 ⟨4, 0xbf800008, 0x1b⟩ st0).outcome
      = .exited (-1) ∧
    (page_fault pintos (env_ok (some 0x4) 0) 0x08048000 ⟨4, 0xbf800008, 0x1b⟩ st0).log
      = [.load_page_from_swap 0x4 0x08048000,
          .palloc_get_page 0x4 0x08048000 (some 0xc0271000), ._exit (-1)] ∧
    held (page_fault pintos (env_ok (some 0x4) 0) 0x08048000 ⟨4, 0xbf800008, 0x1b⟩ st0).log
      = [0xc0271000] ∧
    held (page_fault pintos (env_ok (some 0x7004) 0x08048000) 0x08048000
      ⟨4, 0xbf800008, 0x1b⟩ st0).log = [] := by
  decide

/-! ## C3: the swap-in path -/

/-- C3: for every entry that is user-accessible and whose slot index
`n = *pte & PTE_ADDR` is not 0 (the entries `page_fault` hands over are those
with the file-backed marker clear), and every target page `V`: when the
allocator delivers a frame and `install_page` succeeds, `load_page_from_swap`
returns; it reads slot `n` into that frame, so the frame holds the page image of
slot `n`; it frees slot `n` once and no other slot; and it installs the frame at
`V` as writable. -/
theorem load_page_from_swap_restores (P : Params) (env : Env) (pte V : Nat) (st : State)
    (kpage : Nat) (hu : pte &&& P.PTE_U ≠ 0) (hn : pte &&& P.PTE_ADDR ≠ 0)
    (hp : env.palloc_get_page P.PAL_USER V = some kpage)
    (hi : env.install_page V kpage true = true) :
    (load_page_from_swap P env pte V st).outcome = .returned ∧
    (load_page_from_swap P env pte V st).log
      = [.load_page_from_swap pte V, .palloc_get_page P.PAL_USER V (some kpage),
          .swap_read (pte &&& P.PTE_ADDR) kpage, .swap_free (pte &&& P.PTE_ADDR),
          .install_page V kpage true true] ∧
    swap_frees (load_page_from_swap P env pte V st).log = [pte &&& P.PTE_ADDR] ∧
    (∀ i, i < PGSIZE →
      (load_page_from_swap P env pte V st).st.kmem (kpage + i)
        = env.swap_data (pte &&& P.PTE_ADDR) i) ∧
    (load_page_from_swap P env pte V st).st.swap_used (pte &&& P.PTE_ADDR) = false ∧
    (∀ s, s ≠ pte &&& P.PTE_ADDR →
      (load_page_from_swap P env pte V st).st.swap_used s = st.swap_used s) ∧
    (load_page_from_swap P env pte V st).st.pagedir = ⟨V, kpage, true⟩ :: st.pagedir := by
  have key : load_page_from_swap P env pte V st
      = ⟨.returned,
          [.load_page_from_swap pte V, .palloc_get_page P.PAL_USER V (some kpage),
            .swap_read (pte &&& P.PTE_ADDR) kpage, .swap_free (pte &&& P.PTE_ADDR),
            .install_page V kpage true true],
          do_install V kpage true
            (do_swap_free (pte &&& P.PTE_ADDR)
              (do_swap_read env (pte &&& P.PTE_ADDR) kpage st))⟩ := by
    simp [load_page_from_swap, hu, hn, hp, hi]
  rw [key]
  refine ⟨rfl, rfl, rfl, ?_, ?_, ?_, rfl⟩
  · intro i hi2
    simp [do_install, do_swap_free, do_swap_read, copy_in, hi2]
  · simp [do_install, do_swap_free]
  · intro s hs
    simp [do_install, do_swap_free, do_swap_read, hs]

/-- C3 at a concrete fault: the entry `0x7004` of page `0x08048000` is
user-accessible, has `PTE_M` clear and carries 7 in its slot field, that is
slot index `0x7000` under the mask `PTE_ADDR`.  After the swap-in the frame
`0xc0271000` holds the page image of that slot, the slot is free, and the page
is mapped to the frame, writable. -/
theorem load_page_from_swap_restores_witness :
    (0x7004 : Nat) &&& pintos.PTE_ADDR = 0x7000 ∧
    (load_page_from_swap pintos (env_ok (some 0x7004) 0) 0x7004 0x08048000 st0).outcome
      = .returned ∧
    (∀ i, i < PGSIZE →
      (load_page_from_swap pintos (env_ok (some 0x7004) 0) 0x7004 0x08048000 st0).st.kmem
        (0xc0271000 + i) = (env_ok (some 0x7004) 0).swap_data 0x7000 i) ∧
    (load_page_from_swap pintos (env_ok (some 0x7004) 0) 0x7004 0x08048000 st0).st.swap_used
      0x7000 = false ∧
    (load_page_from_swap pintos (env_ok (some 0x7004) 0) 0x7004 0x08048000 st0).st.pagedir
      = [⟨0x08048000, 0xc0271000, true⟩] :=
  have h := load_page_from_swap_restores pintos (env_ok (some 0x7004) 0) 0x7004 0x08048000 st0
    0xc0271000 (by decide) (by decide) rfl (by decide)
  ⟨by decide, h.1, h.2.2.2.1, h.2.2.2.2.1, h.2.2.2.2.2.2⟩

/-! ## C4: the file-load path -/

/-- The cast to `int` keeps a byte count of at most one page. -/
theorem to_int_small (n : Nat) (h : n ≤ PGSIZE) : to_int n = (n : Int) := by
  unfold PGSIZE at h
  have h1 : n % WORD = n := Nat.mod_eq_of_lt (by unfold WORD; omega)
  unfold to_int
  rw [h1, if_pos (by omega)]

/-- The length of the zero fill, `PGSIZE - bytes_read`, for a byte count of at
most one page. -/
theorem zero_fill_length (n : Nat) (h : n ≤ PGSIZE) : ptr_sub PGSIZE n = PGSIZE - n := by
  unfold PGSIZE at h ⊢
  unfold ptr_sub WORD
  omega

/-- C4: for every supplemental entry with `bytes_read` at most one page, when
the allocator delivers a frame, the file read returns `bytes_read` bytes and
`install_page` succeeds, `load_page_from_file` returns with that frame installed
at the page of the entry, writable exactly when the file is; the first
`bytes_read` bytes of the frame are the file content at `offset`, ...,
`offset + bytes_read - 1`, and every later byte of the page is zero.  The case
`bytes_read = PGSIZE` is included: then there is no byte left to zero. -/
theorem load_page_from_file_contents (P : Params) (env : Env) (s : suppl_pte) (st : State)
    (kpage : Nat) (hb : s.bytes_read ≤ PGSIZE)
    (hp : env.palloc_get_page P.PAL_USER s.upage = some kpage)
    (hr : env.file_read_at s.file s.bytes_read s.offset = (s.bytes_read : Int))
    (hi : env.install_page s.upage kpage (env.file_is_writable s.file) = true) :
    (load_page_from_file P env s st).outcome = .returned ∧
    (load_page_from_file P env s st).log
      = [.load_page_from_file s.upage, .palloc_get_page P.PAL_USER s.upage (some kpage),
          .file_read_at s.file kpage s.bytes_read s.offset (s.bytes_read : Int),
          .memset (kpage + s.bytes_read) 0 (PGSIZE - s.bytes_read),
          .install_page s.upage kpage (env.file_is_writable s.file) true] ∧
    (load_page_from_file P env s st).st.pagedir
      = ⟨s.upage, kpage, env.file_is_writable s.file⟩ :: st.pagedir ∧
    (∀ i, i < s.bytes_read →
      (load_page_from_file P env s st).st.kmem (kpage + i)
        = env.file_data s.file (s.offset + i)) ∧
    (∀ i, s.bytes_read ≤ i → i < PGSIZE →
      (load_page_from_file P env s st).st.kmem (kpage + i) = 0) := by
  have key : load_page_from_file P env s st
      = ⟨.returned,
          [.load_page_from_file s.upage, .palloc_get_page P.PAL_USER s.upage (some kpage),
            .file_read_at s.file kpage s.bytes_read s.offset (s.bytes_read : Int),
            .memset (kpage + s.bytes_read) 0 (PGSIZE - s.bytes_read),
            .install_page s.upage kpage (env.file_is_writable s.file) true],
          do_install s.upage kpage (env.file_is_writable s.file)
            { do_file_read env s.file kpage s.offset (s.bytes_read : Int) st with
              kmem := memset (do_file_read env s.file kpage s.offset (s.bytes_read : Int) st).kmem
                (kpage + s.bytes_read) 0 (PGSIZE - s.bytes_read) }⟩ := by
    simp [load_page_from_file, hp, hr, hi, to_int_small s.bytes_read hb,
      zero_fill_length s.bytes_read hb]
  rw [key]
  refine ⟨rfl, rfl, rfl, ?_, ?_⟩
  · intro i hlt
    have h1 : ¬ (kpage + s.bytes_read ≤ kpage + i ∧
        kpage + i < kpage + s.bytes_read + (PGSIZE - s.bytes_read)) := by omega
    simp [do_install, do_file_read, memset, copy_in, h1, hlt]
  · intro i hge hlt
    have h1 : kpage + s.bytes_read ≤ kpage + i ∧
        kpage + i < kpage + s.bytes_read + (PGSIZE - s.bytes_read) := by omega
    simp only [do_install, memset]
    rw [if_pos h1]

/-- C4 at a concrete entry: page `0x08048000`, file 3, offset 4096, 200 bytes.
Bytes 0..199 of the installed frame are bytes 4096..4295 of the file and bytes
200..4095 are zero, although the frame held stale bytes before. -/
theorem load_page_from_file_contents_witness :
    st0.kmem (0xc0271000 + 200) = 0xcc ∧
    (load_page_from_file pintos (env_ok none 0) ⟨0x08048000, 3, 4096, 200⟩ st0).outcome
      = .returned ∧
    (∀ i, i < 200 →
      (load_page_from_file pintos (env_ok none 0) ⟨0x08048000, 3, 4096, 200⟩ st0).st.kmem
        (0xc0271000 + i) = (env_ok none 0).file_data 3 (4096 + i)) ∧
    (∀ i, 200 ≤ i → i < 4096 →
      (load_page_from_file pintos (env_ok none 0) ⟨0x08048000, 3, 4096, 200⟩ st0).st.kmem
        (0xc0271000 + i) = 0) :=
  have h := load_page_from_file_contents pintos (env_ok none 0) ⟨0x08048000, 3, 4096, 200⟩ st0
    0xc0271000 (by decide) rfl rfl (by decide)
  ⟨rfl, h.1, h.2.2.2.1, h.2.2.2.2⟩

/-! ## C5: the first byte of the lowest stack page -/

/-- C5 at its failing input: a user-mode fault at `0xbf800000`, which is
`PHYS_BASE - 8 MiB`, with the stack pointer 4 bytes above it.  The page of the
fault address starts exactly at the bound, the entry exists, yet `page_fault`
does not enter `stack_growth` and the process exits; four bytes further up, in
the same page, the same kind of fault does grow the stack. -/
theorem stack_bottom_address_not_grown :
    handled pintos (env_ok (some 0) 0) ⟨4, 0xbf800004, 0x1b⟩ ∧
    is_user_vaddr pintos 0xbf800000 = true ∧
    0xbf800000 + 4 = (0xbf800004 : Nat) ∧
    pintos.PHYS_BASE - 8 * 1024 * 1024 ≤ pg_round_down 0xbf800000 ∧
    (page_fault pintos (env_ok (some 0) 0) 0xbf800000 ⟨4, 0xbf800004, 0x1b⟩ st0).log
      = [.load_page_from_swap 0 0xbf800000, ._exit (-1)] ∧
    (page_fault pintos (env_ok (some 0) 0) 0xbf800000 ⟨4, 0xbf800004, 0x1b⟩ st0).outcome
      = .exited (-1) ∧
    pg_round_down 0xbf800004 = pg_round_down 0xbf800000 ∧
    (page_fault pintos (env_ok (some 0) 0) 0xbf800004 ⟨4, 0xbf800008, 0x1b⟩ st0).log
      = [.stack_growth 0xbf800000, .palloc_get_page 0x6 0xbf800000 (some 0xc0271000),
          .memset 0xc0271000 0 4096, .install_page 0xbf800000 0xc0271000 true true] := by
  decide

/-! ## C6: illegal addresses and missing entries -/

/-- C6: for every handled fault (user mode, or kernel mode inside a system call)
whose address is not a valid user address, or for whose rounded-down page
`lookup_page` finds no entry at all, `page_fault` ends in `_exit (-1)` and that
is the only call it makes: no frame is allocated, no swap slot read or freed, no
file read, no mapping installed, and memory, swap map and page directory are as
before.  The stack pointer, part of the arbitrary frame `f`, plays no role. -/
theorem page_fault_illegal_access_exits (P : Params) (env : Env) (cr2 : Nat) (f : intr_frame)
    (st : State) (hk : handled P env f)
    (h : is_user_vaddr P cr2 = false ∨ env.lookup_page (pg_round_down cr2) = none) :
    (page_fault P env cr2 f st).outcome = .exited (-1) ∧
    (page_fault P env cr2 f st).log = [._exit (-1)] ∧
    (∀ e ∈ (page_fault P env cr2 f st).log, e.uses_resource = false) ∧
    (page_fault P env cr2 f st).st = count_fault st := by
  have key : page_fault P env cr2 f st = ⟨.exited (-1), [._exit (-1)], count_fault st⟩ := by
    by_cases ha : cr2 < P.PHYS_BASE
    · rcases h with h | h
      · simp [is_user_vaddr, ha] at h
      · exact page_fault_no_entry P env cr2 f st hk ha h
    · exact page_fault_bad_address P env cr2 f st hk ha
  rw [key]
  simp [Event.uses_resource, Event.is_backing_or_install]

/-- C6 at a concrete fault: a user-mode access to the kernel address
`0xc0000000`, exactly 4 bytes below the stack pointer, exits with status -1
and makes no other call. -/
theorem page_fault_illegal_access_exits_witness :
    handled pintos (env_ok (some 0x7004) 0) ⟨4, 0xc0000004, 0x1b⟩ ∧
    (page_fault pintos (env_ok (some 0x7004) 0) 0xc0000000 ⟨4, 0xc0000004, 0x1b⟩ st0).outcome
      = .exited (-1) ∧
    (page_fault pintos (env_ok (some 0x7004) 0) 0xc0000000 ⟨4, 0xc0000004, 0x1b⟩ st0).log
      = [._exit (-1)] :=
  have h := page_fault_illegal_access_exits pintos (env_ok (some 0x7004) 0) 0xc0000000
    ⟨4, 0xc0000004, 0x1b⟩ st0 (by decide) (Or.inl (by decide))
  ⟨by decide, h.1, h.2.1⟩

/-! ## C7: stack growth needs an entry from `lookup_page` -/

/-- C7 as stated fails: a user-mode fault at `S - 4` for `S = 0xbfffe004`, on a
page far above the stack floor, for which `lookup_page` finds no entry.  The
allocator and `install_page` would both succeed, but `page_fault` exits with
status -1 before it tests for stack growth; nothing is allocated or installed. -/
theorem stack_fault_without_entry_exits :
    handled pintos (env_ok none 0) ⟨4, 0xbfffe004, 0x1b⟩ ∧
    is_user_vaddr pintos 0xbfffe000 = true ∧
    0xbfffe000 + 4 = (0xbfffe004 : Nat) ∧
    STACK_BOTTOM pintos < pg_round_down 0xbfffe000 ∧
    (env_ok none 0).lookup_page (pg_round_down 0xbfffe000) = none ∧
    (env_ok none 0).palloc_get_page (pintos.PAL_USER ||| pintos.PAL_ZERO)
      (pg_round_down 0xbfffe000) = some 0xc0271000 ∧
    (env_ok none 0).install_page (pg_round_down 0xbfffe000) 0xc0271000 true = true ∧
    (page_fault pintos (env_ok none 0) 0xbfffe000 ⟨4, 0xbfffe004, 0x1b⟩ st0).outcome
      = .exited (-1) ∧
    (page_fault pintos (env_ok none 0) 0xbfffe000 ⟨4, 0xbfffe004, 0x1b⟩ st0).log
      = [._exit (-1)] ∧
    (page_fault pintos (env_ok none 0) 0xbfffe000 ⟨4, 0xbfffe004, 0x1b⟩ st0).st.pagedir = [] := by
  decide

/-- The address 4 bytes below a stack pointer, in pointer arithmetic. -/
theorem ptr_sub_four (cr2 esp : Nat) (hs : cr2 + 4 = esp) (he : esp < WORD) :
    ptr_sub esp 4 = cr2 := by
  unfold WORD at he
  unfold ptr_sub WORD
  omega

/-- C7, amended: for every stack pointer `S` and every handled fault at the
legal user address `S - 4` that lies above the 8 MiB stack floor and for whose
page `lookup_page` returns an empty entry (value 0: not resident, no swap slot,
no file-backed marker, so no mapping and no reservation exists for the page):
when the allocator delivers a frame and `install_page` succeeds, `page_fault`
returns; the frame is zero-filled and installed at the page, writable (and, by
the contract of `install_page`, present and user-accessible). -/
theorem stack_fault_on_empty_entry_grows (P : Params) (env : Env) (cr2 : Nat)
    (f : intr_frame) (st : State) (kpage : Nat) (hk : handled P env f)
    (ha : is_user_vaddr P cr2 = true) (hs : cr2 + 4 = f.esp) (he : f.esp < WORD)
    (hf : STACK_BOTTOM P < cr2)
    (hl : env.lookup_page (pg_round_down cr2) = some 0)
    (hp : env.palloc_get_page (P.PAL_USER ||| P.PAL_ZERO) (pg_round_down cr2) = some kpage)
    (hi : env.install_page (pg_round_down cr2) kpage true = true) :
    (page_fault P env cr2 f st).outcome = .returned ∧
    (page_fault P env cr2 f st).log
      = [.stack_growth (pg_round_down cr2),
          .palloc_get_page (P.PAL_USER ||| P.PAL_ZERO) (pg_round_down cr2) (some kpage),
          .memset kpage 0 PGSIZE, .install_page (pg_round_down cr2) kpage true true] ∧
    (∀ i, i < PGSIZE → (page_fault P env cr2 f st).st.kmem (kpage + i) = 0) ∧
    (page_fault P env cr2 f st).st.pagedir = ⟨pg_round_down cr2, kpage, true⟩ :: st.pagedir := by
  have ha2 : cr2 < P.PHYS_BASE := by simpa [is_user_vaddr] using ha
  have hw : in_stack_window P cr2 f :=
    ⟨Or.inl (ptr_sub_four cr2 f.esp hs he).symm, hf⟩
  rw [page_fault_stack P env cr2 f st 0 hk ha2 hl hw]
  have key : stack_growth P env (pg_round_down cr2) (count_fault st)
      = ⟨.returned,
          [.stack_growth (pg_round_down cr2),
            .palloc_get_page (P.PAL_USER ||| P.PAL_ZERO) (pg_round_down cr2) (some kpage),
            .memset kpage 0 PGSIZE, .install_page (pg_round_down cr2) kpage true true],
          do_install (pg_round_down cr2) kpage true
            { count_fault st with kmem := memset (count_fault st).kmem kpage 0 PGSIZE }⟩ := by
    simp [stack_growth, hp, hi]
  rw [key]
  refine ⟨rfl, rfl, ?_, rfl⟩
  intro i hlt
  simp [do_install, memset, hlt]

/-- C7, amended, at a concrete fault: a user-mode fault at `S - 4` for
`S = 0xbfffe004` on a page whose entry exists and is empty: the stack grows by
a zero page at `0xbfffe000`. -/
theorem stack_fault_on_empty_entry_grows_witness :
    (page_fault pintos (env_ok (some 0) 0) 0xbfffe000 ⟨4, 0xbfffe004, 0x1b⟩ st0).outcome
      = .returned ∧
    (∀ i, i < PGSIZE →
      (page_fault pintos (env_ok (some 0) 0) 0xbfffe000 ⟨4, 0xbfffe004, 0x1b⟩ st0).st.kmem
        (0xc0271000 + i) = 0) ∧
    (page_fault pintos (env_ok (some 0) 0) 0xbfffe000 ⟨4, 0xbfffe004, 0x1b⟩ st0).st.pagedir
      = [⟨0xbfffe000, 0xc0271000, true⟩] :=
  have h := stack_fault_on_empty_entry_grows pintos (env_ok (some 0) 0) 0xbfffe000
    ⟨4, 0xbfffe004, 0x1b⟩ st0 0xc0271000 (by decide) (by decide) (by decide) (by decide)
    (by decide) rfl rfl (by decide)
  ⟨h.1, h.2.2.1, h.2.2.2⟩

/-! ## C8: frame exhaustion -/

/-- When `stack_growth` gets no frame it exits at once. -/
theorem stack_growth_exhausted (P : Params) (env : Env) (page : Nat) (st : State)
    (hp : env.palloc_get_page (P.PAL_USER ||| P.PAL_ZERO) page = none) :
    stack_growth P env page st
      = ⟨.exited (-1),
          [.stack_growth page, .palloc_get_page (P.PAL_USER ||| P.PAL_ZERO) page none,
            ._exit (-1)], st⟩ := by
  simp [stack_growth, hp]

/-- When `load_page_from_swap` gets no frame it exits at once. -/
theorem load_page_from_swap_exhausted (P : Params) (env : Env) (pte page : Nat) (st : State)
    (hu : pte &&& P.PTE_U ≠ 0) (hp : env.palloc_get_page P.PAL_USER page = none) :
    load_page_from_swap P env pte page st
      = ⟨.exited (-1),
          [.load_page_from_swap pte page, .palloc_get_page P.PAL_USER page none, ._exit (-1)],
          st⟩ := by
  simp [load_page_from_swap, hu, hp]

/-- When `load_page_from_file` gets no frame it exits at once. -/
theorem load_page_from_file_exhausted (P : Params) (env : Env) (s : suppl_pte) (st : State)
    (hp : env.palloc_get_page P.PAL_USER s.upage = none) :
    load_page_from_file P env s st
      = ⟨.exited (-1),
          [.load_page_from_file s.upage, .palloc_get_page P.PAL_USER s.upage none, ._exit (-1)],
          st⟩ := by
  simp [load_page_from_file, hp]

/-- A log of `stack_growth` that records a failed allocation is the log of the
exhaustion exit. -/
theorem stack_growth_failed_alloc (P : Params) (env : Env) (page : Nat) (st : State)
    (fl up : Nat) (h : Event.palloc_get_page fl up none ∈ (stack_growth P env page st).log) :
    env.palloc_get_page (P.PAL_USER ||| P.PAL_ZERO) page = none := by
  cases hp : env.palloc_get_page (P.PAL_USER ||| P.PAL_ZERO) page with
  | none => rfl
  | some kpage =>
    cases hi : env.install_page page kpage true <;> simp [stack_growth, hp, hi] at h

/-- A log of `load_page_from_swap` that records a failed allocation is the log
of the exhaustion exit. -/
theorem load_page_from_swap_failed_alloc (P : Params) (env : Env) (pte page : Nat)
    (st : State) (fl up : Nat)
    (h : Event.palloc_get_page fl up none ∈ (load_page_from_swap P env pte page st).log) :
    pte &&& P.PTE_U ≠ 0 ∧ env.palloc_get_page P.PAL_USER page = none := by
  by_cases hu : pte &&& P.PTE_U = 0
  · simp [load_page_from_swap, hu] at h
  · refine ⟨hu, ?_⟩
    cases hp : env.palloc_get_page P.PAL_USER page with
    | none => rfl
    | some kpage =>
      by_cases hs : pte &&& P.PTE_ADDR = 0
      · simp [load_page_from_swap, hu, hp, hs] at h
      · cases hi : env.install_page page kpage true <;>
          simp [load_page_from_swap, hu, hp, hs, hi] at h

/-- A log of `load_page_from_file` that records a failed allocation is the log
of the exhaustion exit. -/
theorem load_page_from_file_failed_alloc (P : Params) (env : Env) (s : suppl_pte)
    (st : State) (fl up : Nat)
    (h : Event.palloc_get_page fl up none ∈ (load_page_from_file P env s st).log) :
    env.palloc_get_page P.PAL_USER s.upage = none := by
  cases hp : env.palloc_get_page P.PAL_USER s.upage with
  | none => rfl
  | some kpage =>
    by_cases hn : env.file_read_at s.file s.bytes_read s.offset = to_int s.bytes_read
    · cases hi : env.install_page s.upage kpage (env.file_is_writable s.file) <;>
        simp [load_page_from_file, hp, hn, hi] at h
    · simp [load_page_from_file, hp, hn] at h

/-- C8: when `palloc_get_page` reports exhaustion in `stack_growth`, in
`load_page_from_swap` or in `load_page_from_file`, the path exits with status -1
having made no swap read, no swap free, no file read and no install, holding no
frame and leaving the machine state as it found it; and a `page_fault` during
which the allocator reported exhaustion ends the same way. -/
theorem palloc_exhaustion_exits (P : Params) (env : Env) (st : State) :
    (∀ page, env.palloc_get_page (P.PAL_USER ||| P.PAL_ZERO) page = none →
      (stack_growth P env page st).outcome = .exited (-1) ∧
      (∀ e ∈ (stack_growth P env page st).log, e.is_backing_or_install = false) ∧
      held (stack_growth P env page st).log = [] ∧
      (stack_growth P env page st).st = st) ∧
    (∀ pte page, env.palloc_get_page P.PAL_USER page = none →
      (load_page_from_swap P env pte page st).outcome = .exited (-1) ∧
      (∀ e ∈ (load_page_from_swap P env pte page st).log, e.is_backing_or_install = false) ∧
      held (load_page_from_swap P env pte page st).log = [] ∧
      (load_page_from_swap P env pte page st).st = st) ∧
    (∀ s : suppl_pte, env.palloc_get_page P.PAL_USER s.upage = none →
      (load_page_from_file P env s st).outcome = .exited (-1) ∧
      (∀ e ∈ (load_page_from_file P env s st).log, e.is_backing_or_install = false) ∧
      held (load_page_from_file P env s st).log = [] ∧
      (load_page_from_file P env s st).st = st) ∧
    (∀ cr2 f fl up, Event.palloc_get_page fl up none ∈ (page_fault P env cr2 f st).log →
      (page_fault P env cr2 f st).outcome = .exited (-1) ∧
      (∀ e ∈ (page_fault P env cr2 f st).log, e.is_backing_or_install = false) ∧
      held (page_fault P env cr2 f st).log = [] ∧
      (page_fault P env cr2 f st).st = count_fault st) := by
  have hsg : ∀ (st1 : State) page,
      env.palloc_get_page (P.PAL_USER ||| P.PAL_ZERO) page = none →
      (stack_growth P env page st1).outcome = .exited (-1) ∧
      (∀ e ∈ (stack_growth P env page st1).log, e.is_backing_or_install = false) ∧
      held (stack_growth P env page st1).log = [] ∧
      (stack_growth P env page st1).st = st1 := by
    intro st1 page hp
    rw [stack_growth_exhausted P env page st1 hp]
    simp [Event.is_backing_or_install, held, held_step]
  have hsw : ∀ (st1 : State) pte page,
      env.palloc_get_page P.PAL_USER page = none →
      (load_page_from_swap P env pte page st1).outcome = .exited (-1) ∧
      (∀ e ∈ (load_page_from_swap P env pte page st1).log, e.is_backing_or_install = false) ∧
      held (load_page_from_swap P env pte page st1).log = [] ∧
      (load_page_from_swap P env pte page st1).st = st1 := by
    intro st1 pte page hp
    by_cases hu : pte &&& P.PTE_U = 0
    · simp [load_page_from_swap, hu, Event.is_backing_or_install, held, held_step]
    · rw [load_page_from_swap_exhausted P env pte page st1 hu hp]
      simp [Event.is_backing_or_install, held, held_step]
  have hfi : ∀ (st1 : State) (s : suppl_pte), env.palloc_get_page P.PAL_USER s.upage = none →
      (load_page_from_file P env s st1).outcome = .exited (-1) ∧
      (∀ e ∈ (load_page_from_file P env s st1).log, e.is_backing_or_install = false) ∧
      held (load_page_from_file P env s st1).log = [] ∧
      (load_page_from_file P env s st1).st = st1 := by
    intro st1 s hp
    rw [load_page_from_file_exhausted P env s st1 hp]
    simp [Event.is_backing_or_install, held, held_step]
  refine ⟨hsg st, hsw st, hfi st, ?_⟩
  intro cr2 f fl up hmem
  by_cases hk : handled P env f
  · by_cases ha : cr2 < P.PHYS_BASE
    · cases hl : env.lookup_page (pg_round_down cr2) with
      | none =>
        rw [page_fault_no_entry P env cr2 f st hk ha hl] at hmem
        simp at hmem
      | some pte =>
        by_cases hw : in_stack_window P cr2 f
        · rw [page_fault_stack P env cr2 f st pte hk ha hl hw] at hmem ⊢
          exact hsg _ _ (stack_growth_failed_alloc P env _ _ fl up hmem)
        · by_cases hm : pte &&& P.PTE_M = 0
          · rw [page_fault_swap P env cr2 f st pte hk ha hl hw hm] at hmem ⊢
            exact hsw _ _ _ (load_page_from_swap_failed_alloc P env _ _ _ fl up hmem).2
          · rw [page_fault_file P env cr2 f st pte hk ha hl hw hm] at hmem ⊢
            cases hh : env.hash_find (pg_round_down cr2) with
            | none => rw [hh] at hmem; simp at hmem
            | some s =>
              rw [hh] at hmem
              by_cases hs : s.upage = pg_round_down cr2
              · simp only [hs, ne_eq, not_true_eq_false, if_false] at hmem ⊢
                exact hfi _ _ (load_page_from_file_failed_alloc P env _ _ fl up hmem)
              · simp [hs] at hmem
    · rw [page_fault_bad_address P env cr2 f st hk ha] at hmem
      simp at hmem
  · rw [page_fault_unhandled P env cr2 f st hk] at hmem
    unfold kill at hmem
    split_ifs at hmem <;> simp at hmem

/-- C8 at a concrete machine: with an exhausted allocator, growing the stack at
page `0xbffff000` exits with status -1 and holds no frame. -/
theorem palloc_exhaustion_exits_witness :
    (stack_growth pintos (env_exhausted none) 0xbffff000 st0).outcome = .exited (-1) ∧
    held (stack_growth pintos (env_exhausted none) 0xbffff000 st0).log = [] :=
  have h := (palloc_exhaustion_exits pintos (env_exhausted none) st0).1 0xbffff000 rfl
  ⟨h.1, h.2.2.1⟩

/-! ## C9: a fault on a resident page is loaded again -/

/-- C9 at its failing input: a user-mode write that violates the rights of the
resident page `0x08048000` (error code 7: protection violation, write, user),
whose entry `0x00123005` is present, user-accessible and read-only with frame
address `0x00123000`.  `page_fault` never looks at the present bit: it calls
`load_page_from_swap`, which reads and frees the swap slot numbered by the
frame address before `install_page` refuses the already mapped page. -/
theorem resident_page_fault_reads_and_frees_swap :
    handled pintos (env_ok (some 0x00123005) 0x08048000) ⟨7, 0xbf800008, 0x1b⟩ ∧
    (7 : Nat) &&& pintos.PF_P ≠ 0 ∧
    (page_fault pintos (env_ok (some 0x00123005) 0x08048000) 0x08048123
      ⟨7, 0xbf800008, 0x1b⟩ st0).log
      = [.load_page_from_swap 0x00123005 0x08048000,
          .palloc_get_page 0x4 0x08048000 (some 0xc0271000),
          .swap_read 0x00123000 0xc0271000, .swap_free 0x00123000,
          .install_page 0x08048000 0xc0271000 true false,
          .palloc_free_page 0xc0271000, ._exit (-1)] ∧
    (page_fault pintos (env_ok (some 0x00123005) 0x08048000) 0x08048123
      ⟨7, 0xbf800008, 0x1b⟩ st0).st.swap_used 0x00123000 = false ∧
    st0.swap_used 0x00123000 = true := by
  decide

/-! ## C10: stack growth over an existing reservation -/

/-- Outside the stack window an existing entry is served by its marker: for a
handled fault at a legal address that fails the stack test of the code,
`page_fault` does not enter `stack_growth`; with `PTE_M` clear the entry goes to
`load_page_from_swap`, with `PTE_M` set to `load_page_from_file` on the
supplemental entry of the page. -/
theorem entry_served_outside_stack_window (P : Params) (env : Env) (cr2 : Nat)
    (f : intr_frame) (st : State) (pte : Nat) (hk : handled P env f)
    (ha : is_user_vaddr P cr2 = true)
    (hl : env.lookup_page (pg_round_down cr2) = some pte)
    (hw : ¬ ((cr2 = ptr_sub f.esp 4 ∨ cr2 = ptr_sub f.esp 32) ∧ STACK_BOTTOM P < cr2)) :
    (∀ e ∈ (page_fault P env cr2 f st).log, e.is_stack_growth = false) ∧
    (pte &&& P.PTE_M = 0 →
      page_fault P env cr2 f st
        = load_page_from_swap P env pte (pg_round_down cr2) (count_fault st)) ∧
    (pte &&& P.PTE_M ≠ 0 → ∀ s, env.hash_find (pg_round_down cr2) = some s →
      s.upage = pg_round_down cr2 →
      page_fault P env cr2 f st = load_page_from_file P env s (count_fault st)) := by
  have ha2 : cr2 < P.PHYS_BASE := by simpa [is_user_vaddr] using ha
  have hw2 : ¬ in_stack_window P cr2 f := hw
  refine ⟨?_, ?_, ?_⟩
  · by_cases hm : pte &&& P.PTE_M = 0
    · rw [page_fault_swap P env cr2 f st pte hk ha2 hl hw2 hm]
      exact load_page_from_swap_no_growth P env _ _ _
    · rw [page_fault_file P env cr2 f st pte hk ha2 hl hw2 hm]
      cases hh : env.hash_find (pg_round_down cr2) with
      | none => simp [Event.is_stack_growth]
      | some s =>
        by_cases hs : s.upage = pg_round_down cr2
        · simp only [hs, ne_eq, not_true_eq_false, if_false]
          exact load_page_from_file_no_growth P env _ _
        · simp [hs, Event.is_stack_growth]
  · intro hm
    exact page_fault_swap P env cr2 f st pte hk ha2 hl hw2 hm
  · intro hm s hh hs
    rw [page_fault_file P env cr2 f st pte hk ha2 hl hw2 hm, hh]
    simp [hs]

/-- C10 at its failing input: user-mode faults at `S - 4` for `S = 0xbfffe004`,
above the stack floor, on page `0xbfffe000` whose entry is swap-backed
(`0x7004`: user-accessible, slot index `0x7000`, `PTE_M` clear) or
file-backed-pending (`0x204`: `PTE_M` set).  In both cases `page_fault` enters
`stack_growth` and installs a fresh zero page over the reservation: the swap
slot is neither read nor freed and stays in use, the file is not read, and the
frame holds 0 at offset `0x104` where the page image of the slot holds 4.  The
same swap-backed entry faulting 64 bytes below the stack pointer is restored
from its slot, which is then freed. -/
theorem stack_growth_overrides_reservation :
    handled pintos (env_ok (some 0x7004) 0) ⟨4, 0xbfffe004, 0x1b⟩ ∧
    is_user_vaddr pintos 0xbfffe000 = true ∧
    0xbfffe000 + 4 = (0xbfffe004 : Nat) ∧
    STACK_BOTTOM pintos < 0xbfffe000 ∧
    (0x7004 : Nat) &&& pintos.PTE_ADDR = 0x7000 ∧ (0x7004 : Nat) &&& pintos.PTE_M = 0 ∧
    (0x204 : Nat) &&& pintos.PTE_M ≠ 0 ∧
    (page_fault pintos (env_ok (some 0x7004) 0) 0xbfffe000 ⟨4, 0xbfffe004, 0x1b⟩ st0).outcome
      = .returned ∧
    (page_fault pintos (env_ok (some 0x7004) 0) 0xbfffe000 ⟨4, 0xbfffe004, 0x1b⟩ st0).log
      = [.stack_growth 0xbfffe000, .palloc_get_page 0x6 0xbfffe000 (some 0xc0271000),
          .memset 0xc0271000 0 4096, .install_page 0xbfffe000 0xc0271000 true true] ∧
    (page_fault pintos (env_ok (some 0x7004) 0) 0xbfffe000
      ⟨4, 0xbfffe004, 0x1b⟩ st0).st.pagedir = [⟨0xbfffe000, 0xc0271000, true⟩] ∧
    (page_fault pintos (env_ok (some 0x7004) 0) 0xbfffe000
      ⟨4, 0xbfffe004, 0x1b⟩ st0).st.kmem (0xc0271000 + 0x104) = 0 ∧
    (env_ok (some 0x7004) 0).swap_data 0x7000 0x104 = 4 ∧
    (page_fault pintos (env_ok (some 0x7004) 0) 0xbfffe000
      ⟨4, 0xbfffe004, 0x1b⟩ st0).st.swap_used 0x7000 = true ∧
    (page_fault pintos (env_ok (some 0x204) 0) 0xbfffe000 ⟨4, 0xbfffe004, 0x1b⟩ st0).log
      = [.stack_growth 0xbfffe000, .palloc_get_page 0x6 0xbfffe000 (some 0xc0271000),
          .memset 0xc0271000 0 4096, .install_page 0xbfffe000 0xc0271000 true true] ∧
    (page_fault pintos (env_ok (some 0x7004) 0) 0xbfffe000 ⟨4, 0xbfffe040, 0x1b⟩ st0).log
      = [.load_page_from_swap 0x7004 0xbfffe000,
          .palloc_get_page 0x4 0xbfffe000 (some 0xc0271000),
          .swap_read 0x7000 0xc0271000, .swap_free 0x7000,
          .install_page 0xbfffe000 0xc0271000 true true] ∧
    (page_fault pintos (env_ok (some 0x7004) 0) 0xbfffe000
      ⟨4, 0xbfffe040, 0x1b⟩ st0).st.kmem (0xc0271000 + 0x104) = 4 ∧
    (page_fault pintos (env_ok (some 0x7004) 0) 0xbfffe000
      ⟨4, 0xbfffe040, 0x1b⟩ st0).st.swap_used 0x7000 = false := by
  decide

end Exception
